import Mathlib

/-!
Verification of the `awoo` animation-scheduling core.

The development shallowly embeds the crate's data model:

* `Behavior`, `Cut` (with `Cut.new` and `Cut.dur`) from `src/lib.rs`;
* `SimpleF32TimeGenerator` with its `TimeGenerator` methods
  (`current`, `tick`, `untick`, `reset`, `set`, `change_delta`) from
  `src/time/simple.rs`;
* an exact model of IEEE-754 binary32 ("f32") arithmetic, since the
  generator's time type in the source is `f32`.

Rust methods that mutate `&mut self` are embedded as functions returning the
updated state (paired with the returned value where the method returns one).
-/

set_option maxRecDepth 100000

namespace Awoo

/-! ### An exact model of finite IEEE-754 binary32 values

Every finite `f32` is an integer multiple of `2^(-149)` (the smallest
subnormal magnitude).  We represent an `f32` value exactly by that integer
multiple: a value `v` is stored as `v * 2^149 : ℤ`.  Addition and
subtraction of two such scaled integers is exact; the IEEE operation is the
exact result rounded to the nearest representable value, ties to even,
which is what `roundF32Scaled` computes.  Overflow to infinity and NaN are
outside the modelled range (the rounding function simply keeps rounding to
24 significant bits beyond the largest finite exponent); every value
appearing in the claims is far below that range. -/

/-- Number of binary digits of `n`, by fuel recursion so that the kernel can
evaluate it.  The fuel `400` is exact for every `n < 2^400`, which covers all
scaled values of magnitude below `2^251` — far beyond the `f32` range. -/
def natBitsAux : ℕ → ℕ → ℕ
  | 0, _ => 0
  | fuel+1, n => if n = 0 then 0 else natBitsAux fuel (n / 2) + 1

/-- Bit length of a natural number (`natBits 0 = 0`, `natBits 1 = 1`,
`natBits (2^k) = k+1`). -/
def natBits (n : ℕ) : ℕ := natBitsAux 400 n

/-- Round the exact rational `n / d` (with `d > 0`) to the nearest natural
number, ties to even. -/
def rneDivNat (n d : ℕ) : ℕ :=
  let q := n / d
  let r := n % d
  if 2 * r < d then q
  else if d < 2 * r then q + 1
  else if q % 2 = 0 then q else q + 1

/-- Round the nonnegative exact value `n / d` (in `2^(-149)` scaled units,
`d > 0`) to the nearest `f32`-representable scaled value, ties to even.
A scaled value with bit length `k ≤ 24` is a subnormal or a low normal and is
representable at granularity `1`; for `k > 24` the binade's unit in the last
place is `2^(k-24)` scaled units. -/
def roundF32ScaledNat (n d : ℕ) : ℕ :=
  let k := natBits (n / d)
  if k ≤ 24 then rneDivNat n d
  else
    let g := 2 ^ (k - 24)
    rneDivNat n (d * g) * g

/-- Round an exact scaled integer value to the nearest `f32`-representable
scaled value, ties to even (IEEE rounding is sign-symmetric). -/
def roundF32Scaled (x : ℤ) : ℤ :=
  if x < 0 then -(roundF32ScaledNat x.natAbs 1 : ℤ) else (roundF32ScaledNat x.natAbs 1 : ℤ)

/-- A finite IEEE-754 binary32 value, stored exactly: `val` is the value
multiplied by `2^149`, so `val = 1` is the smallest positive subnormal. -/
structure F32 where
  val : ℤ
deriving DecidableEq

/-- The `f32` nearest to the rational `num / den` (with `den > 0`): the value
of a Rust `f32` literal, which is rounded to nearest, ties to even. -/
def f32 (num : ℤ) (den : ℕ) : F32 :=
  if num < 0 then ⟨-(roundF32ScaledNat (num.natAbs * 2 ^ 149) den : ℤ)⟩
  else ⟨(roundF32ScaledNat (num.natAbs * 2 ^ 149) den : ℤ)⟩

/-- IEEE `f32` addition: exact sum, rounded. -/
def F32.add (a b : F32) : F32 := ⟨roundF32Scaled (a.val + b.val)⟩

/-- IEEE `f32` subtraction: exact difference, rounded. -/
def F32.sub (a b : F32) : F32 := ⟨roundF32Scaled (a.val - b.val)⟩

instance : Add F32 := ⟨F32.add⟩

instance : Sub F32 := ⟨F32.sub⟩

/-! ### `Behavior` and `Cut` (src/lib.rs) -/

/-- `Behavior<'a, T, A>` of src/lib.rs: a boxed function `T -> Option<A>`. -/
structure Behavior (T A : Type) where
  behavior : T → Option A

/-- `Behavior::from_fn` (src/lib.rs lines 22-26): wraps the function. -/
def Behavior.from_fn {T A : Type} (f : T → Option A) : Behavior T A :=
  { behavior := f }

/-- `Behavior::react` (src/lib.rs lines 28-30): applies the wrapped
function. -/
def Behavior.react {T A : Type} (b : Behavior T A) (t : T) : Option A :=
  b.behavior t

/-- `Cut<'a, T, A>` of src/lib.rs: a borrowed behavior plus the two bound
times. -/
structure Cut (T A : Type) where
  behavior : Behavior T A
  start_t : T
  stop_t : T

/-- `Cut::new` (src/lib.rs lines 52-56).  The body is
`guard!(stop_t < start_t); Some(Cut { .. })` where `try_guard::guard!`
continues exactly when its condition is true and otherwise short-circuits
the function to `None`.  Hence construction succeeds precisely when
`stop_t < start_t`. -/
def Cut.new {T A : Type} [LinearOrder T] (behavior : Behavior T A) (start_t stop_t : T) :
    Option (Cut T A) :=
  if stop_t < start_t then some { behavior := behavior, start_t := start_t, stop_t := stop_t }
  else none

/-- `Cut::dur` (src/lib.rs lines 58-60): `stop_t - start_t`. -/
def Cut.dur {T A : Type} [Sub T] (c : Cut T A) : T :=
  c.stop_t - c.start_t

/-- Modelled from the spec: `Cut::sample` is missing from src — src/lib.rs
defines `Cut` with only `new` and `dur` and no sampling method.  Spec §4.2:
`sample(t)` is defined only for `start_t <= t < stop_t` (half-open
interval), delegating to the underlying behavior there, and outside that
range returns "not sampled here" without consulting the behavior. -/
def Cut.sample {T A : Type} [LinearOrder T] (c : Cut T A) (t : T) : Option A :=
  if c.start_t ≤ t ∧ t < c.stop_t then c.behavior.react t else none

/-! ### `SimpleF32TimeGenerator` (src/time/simple.rs) -/

/-- `SimpleF32TimeGenerator` (src/time/simple.rs lines 11-15): three `f32`
fields. -/
structure SimpleF32TimeGenerator where
  current : F32
  reset_value : F32
  delta : F32
deriving DecidableEq

/-- `SimpleF32TimeGenerator::new` (src/time/simple.rs lines 19-25):
`current` starts at `reset_value`. -/
def SimpleF32TimeGenerator.new (reset_value delta : F32) : SimpleF32TimeGenerator :=
  { current := reset_value, reset_value := reset_value, delta := delta }

/-- `tick` (src/time/simple.rs lines 35-39): returns the current time, then
advances `current` by `delta`.  The mutation is embedded as the second
component of the result. -/
def SimpleF32TimeGenerator.tick (g : SimpleF32TimeGenerator) :
    F32 × SimpleF32TimeGenerator :=
  (g.current, { g with current := g.current + g.delta })

/-- `untick` (src/time/simple.rs lines 41-45): returns the current time,
then regresses `current` by `delta`. -/
def SimpleF32TimeGenerator.untick (g : SimpleF32TimeGenerator) :
    F32 × SimpleF32TimeGenerator :=
  (g.current, { g with current := g.current - g.delta })

/-- `set` (src/time/simple.rs lines 51-53): force-sets `current`. -/
def SimpleF32TimeGenerator.set (g : SimpleF32TimeGenerator) (value : F32) :
    SimpleF32TimeGenerator :=
  { g with current := value }

/-- `reset` (src/time/simple.rs lines 47-49): `self.set(self.reset_value)`. -/
def SimpleF32TimeGenerator.reset (g : SimpleF32TimeGenerator) : SimpleF32TimeGenerator :=
  g.set g.reset_value

/-- `change_delta` (src/time/simple.rs lines 55-57): replaces `delta`. -/
def SimpleF32TimeGenerator.change_delta (g : SimpleF32TimeGenerator) (delta : F32) :
    SimpleF32TimeGenerator :=
  { g with delta := delta }

/-- One call of a `TimeGenerator` trait method, for reasoning about call
histories. -/
inductive TGOp where
  | tick
  | untick
  | reset
  | set (value : F32)
  | change_delta (delta : F32)
deriving DecidableEq

/-- State after one trait-method call (the returned time, if any, is
discarded). -/
def TGOp.apply (g : SimpleF32TimeGenerator) : TGOp → SimpleF32TimeGenerator
  | .tick => (g.tick).2
  | .untick => (g.untick).2
  | .reset => g.reset
  | .set v => g.set v
  | .change_delta d => g.change_delta d

/-- State after a sequence of trait-method calls. -/
def SimpleF32TimeGenerator.run (g : SimpleF32TimeGenerator) (ops : List TGOp) :
    SimpleF32TimeGenerator :=
  ops.foldl TGOp.apply g

/-- No trait method writes the `reset_value` field. -/
lemma TGOp.apply_reset_value (g : SimpleF32TimeGenerator) (op : TGOp) :
    (TGOp.apply g op).reset_value = g.reset_value := by
  cases op <;> rfl

/-- `reset_value` is invariant under any call history. -/
lemma SimpleF32TimeGenerator.run_reset_value (g : SimpleF32TimeGenerator) (ops : List TGOp) :
    (g.run ops).reset_value = g.reset_value := by
  induction ops generalizing g with
  | nil => rfl
  | cons op rest ih =>
      calc (g.run (op :: rest)).reset_value
          = ((TGOp.apply g op).run rest).reset_value := rfl
        _ = (TGOp.apply g op).reset_value := ih _
        _ = g.reset_value := TGOp.apply_reset_value g op

/-- A sample behavior used to evaluate the `Cut` constructor and sampling on
concrete inputs: defined everywhere, doubling its integer argument. -/
def exB : Behavior ℤ ℤ := Behavior.from_fn (fun t => some (2 * t))

/-- A concrete cut over the half-open interval `[0, 2)` of `exB`, built
directly (the constructor `Cut.new` rejects these bounds, see C1/C2). -/
def exCut : Cut ℤ ℤ := { behavior := exB, start_t := 0, stop_t := 2 }

/-! ### Claims -/

/-- Claim C1: the claim says `Cut::new(behavior, start_t, stop_t)` fails
exactly when `stop_t < start_t` and succeeds whenever `start_t <= stop_t`.
The code does the opposite: `guard!(stop_t < start_t)` continues only when
the condition holds, so `new` succeeds exactly when `stop_t < start_t`.
This theorem evaluates the embedded constructor at both kinds of input:
the well-ordered bounds `(0, 1)` are rejected (the claim says they must be
accepted, including the degenerate `(0, 0)` which is also rejected), while
the inverted bounds `(5, 2)` are accepted (the claim says they must be
rejected). -/
theorem cut_new_guard_is_inverted :
    (Cut.new exB (0 : ℤ) 1).isNone = true ∧
    (Cut.new exB (0 : ℤ) 0).isNone = true ∧
    (Cut.new exB (5 : ℤ) 2).isSome = true := by
  refine ⟨?_, ?_, ?_⟩ <;> rfl

/-- Claim C2: the claim says that for `start_t <= stop_t` construction
succeeds with `dur() = stop_t - start_t >= 0`.  On the code, construction
with `start_t = 0 <= 1 = stop_t` returns `None` (inverted guard, see C1),
so the claim fails; the `dur` computation itself does return
`stop_t - start_t` (evaluated here on a directly-built cut over `[0, 2)`),
and the only cuts `new` does produce have `stop_t < start_t` and hence
negative duration, as evaluated on the cut produced from bounds `(5, 2)`. -/
theorem cut_new_fails_on_ordered_bounds :
    (Cut.new exB (0 : ℤ) 1).isNone = true ∧
    exCut.dur = 2 ∧
    (((Cut.new exB (5 : ℤ) 2).map Cut.dur) = some (-3)) := by
  refine ⟨?_, ?_, ?_⟩ <;> rfl

/-- Claim C3: after any prior history of `tick`/`untick` calls, `reset`
restores `current` to the `reset_value` passed to `new`, and leaves `delta`
unchanged. -/
theorem reset_restores_after_tick_history (r d : F32) (ops : List TGOp)
    (_h : ∀ op ∈ ops, op = TGOp.tick ∨ op = TGOp.untick) :
    (((SimpleF32TimeGenerator.new r d).run ops).reset).current = r ∧
    (((SimpleF32TimeGenerator.new r d).run ops).reset).delta =
      ((SimpleF32TimeGenerator.new r d).run ops).delta := by
  refine ⟨?_, rfl⟩
  show ((SimpleF32TimeGenerator.new r d).run ops).reset_value = r
  exact SimpleF32TimeGenerator.run_reset_value _ ops

/-- Witness for C3 at a concrete generator and history. -/
theorem reset_restores_after_tick_history_witness :
    (((SimpleF32TimeGenerator.new (f32 0 1) (f32 1 10)).run
        [TGOp.tick, TGOp.tick, TGOp.untick]).reset).current = f32 0 1 ∧
    (((SimpleF32TimeGenerator.new (f32 0 1) (f32 1 10)).run
        [TGOp.tick, TGOp.tick, TGOp.untick]).reset).delta =
      ((SimpleF32TimeGenerator.new (f32 0 1) (f32 1 10)).run
        [TGOp.tick, TGOp.tick, TGOp.untick]).delta :=
  reset_restores_after_tick_history (f32 0 1) (f32 1 10)
    [TGOp.tick, TGOp.tick, TGOp.untick] (by decide)

/-- Claim C4: `tick` returns the current time and advances `current` by
adding `delta`; `untick` returns the current time and regresses `current`
by subtracting `delta` (`f32` addition and subtraction). -/
theorem tick_untick_step (g : SimpleF32TimeGenerator) :
    (g.tick).1 = g.current ∧ (g.tick).2.current = g.current + g.delta ∧
    (g.untick).1 = g.current ∧ (g.untick).2.current = g.current - g.delta :=
  ⟨rfl, rfl, rfl, rfl⟩

/-- Claim C5: with `delta` unchanged, `tick` immediately followed by
`untick` (and vice versa) restores `current` to its prior value.  The
claim's proviso "modulo floating-point rounding" is formalized by the three
hypotheses, which say that no rounding occurs in the two `f32` operations
involved (the stored `current` is representable and both `current + delta`
and `current - delta` are exact); under exact arithmetic the round trip is
the group identity `(c + d) - d = c`. -/
theorem tick_untick_round_trip (g : SimpleF32TimeGenerator)
    (hcur : roundF32Scaled g.current.val = g.current.val)
    (hadd : roundF32Scaled (g.current.val + g.delta.val) = g.current.val + g.delta.val)
    (hsub : roundF32Scaled (g.current.val - g.delta.val) = g.current.val - g.delta.val) :
    ((g.tick).2.untick).2.current = g.current ∧
    ((g.untick).2.tick).2.current = g.current := by
  constructor
  · show F32.sub (F32.add g.current g.delta) g.delta = g.current
    simp only [F32.add, F32.sub, hadd, add_sub_cancel_right, hcur]
  · show F32.add (F32.sub g.current g.delta) g.delta = g.current
    simp only [F32.add, F32.sub, hsub, sub_add_cancel, hcur]

/-- Witness for C5: a generator at time `1.0` with `delta = 0.5`; both
`1.0 + 0.5` and `1.0 - 0.5` are exact in `f32`. -/
theorem tick_untick_round_trip_witness :
    (((SimpleF32TimeGenerator.new (f32 1 1) (f32 1 2)).tick).2.untick).2.current =
      (SimpleF32TimeGenerator.new (f32 1 1) (f32 1 2)).current ∧
    (((SimpleF32TimeGenerator.new (f32 1 1) (f32 1 2)).untick).2.tick).2.current =
      (SimpleF32TimeGenerator.new (f32 1 1) (f32 1 2)).current :=
  tick_untick_round_trip (SimpleF32TimeGenerator.new (f32 1 1) (f32 1 2))
    (by decide) (by decide) (by decide)

/-- Claim C6, counterexample: the claim says `current` is the only field
any operation ever mutates and in particular that no operation changes
`delta`; but `change_delta` (src/time/simple.rs lines 55-57) replaces the
`delta` field, as this concrete evaluation shows. -/
theorem change_delta_mutates_delta :
    ((SimpleF32TimeGenerator.new (f32 0 1) (f32 1 1)).change_delta (f32 2 1)).delta ≠
      (SimpleF32TimeGenerator.new (f32 0 1) (f32 1 1)).delta := by
  decide

/-- Claim C6 as amended: `tick`, `untick`, `reset` and `set` mutate only
`current`; `change_delta` mutates only `delta`; no operation ever changes
`reset_value`. -/
theorem field_mutation_discipline (g : SimpleF32TimeGenerator) (v d : F32) :
    ((g.tick).2.reset_value = g.reset_value ∧ (g.tick).2.delta = g.delta) ∧
    ((g.untick).2.reset_value = g.reset_value ∧ (g.untick).2.delta = g.delta) ∧
    ((g.reset).reset_value = g.reset_value ∧ (g.reset).delta = g.delta) ∧
    ((g.set v).reset_value = g.reset_value ∧ (g.set v).delta = g.delta) ∧
    ((g.change_delta d).reset_value = g.reset_value ∧
      (g.change_delta d).current = g.current) :=
  ⟨⟨rfl, rfl⟩, ⟨rfl, rfl⟩, ⟨rfl, rfl⟩, ⟨rfl, rfl⟩, rfl, rfl⟩

/-- Claim C7: with `reset_value = 0.0` and `delta = 0.1`, four successive
`tick` calls return the `f32` values `0.0`, `0.1`, `0.2`, `0.3`, and the
`current` field is then the `f32` value `0.4`.  This is exact `f32`
arithmetic: `0.1f32 + 0.1f32 = 0.2f32`, `0.2f32 + 0.1f32 = 0.3f32` and
`0.3f32 + 0.1f32 = 0.4f32` all round to the `f32` nearest the decimal
literal. -/
theorem scenario_a_four_ticks :
    ((SimpleF32TimeGenerator.new (f32 0 1) (f32 1 10)).tick).1 = f32 0 1 ∧
    (((SimpleF32TimeGenerator.new (f32 0 1) (f32 1 10)).tick).2.tick).1 = f32 1 10 ∧
    ((((SimpleF32TimeGenerator.new (f32 0 1) (f32 1 10)).tick).2.tick).2.tick).1 =
      f32 2 10 ∧
    (((((SimpleF32TimeGenerator.new (f32 0 1) (f32 1 10)).tick).2.tick).2.tick).2.tick).1 =
      f32 3 10 ∧
    (((((SimpleF32TimeGenerator.new (f32 0 1) (f32 1 10)).tick).2.tick).2.tick).2.tick).2.current =
      f32 4 10 := by
  refine ⟨rfl, ?_, ?_, ?_, ?_⟩ <;> decide

/-- Claim C8: for a cut over `[s, e)`, `sample t` delegates to the
underlying behavior exactly when `s ≤ t < e`, and outside that half-open
interval yields `none` regardless of the behavior (which is quantified over
via the arbitrary cut `c`). -/
theorem cut_sample_halfopen {T A : Type} [LinearOrder T] (c : Cut T A) (t : T) :
    (c.start_t ≤ t ∧ t < c.stop_t → c.sample t = c.behavior.react t) ∧
    (¬(c.start_t ≤ t ∧ t < c.stop_t) → c.sample t = none) := by
  constructor
  · intro h
    simp [Cut.sample, h]
  · intro h
    simp [Cut.sample, h]

/-- Witness for C8 on the cut `[0, 2)` over the doubling behavior: inside
the interval, `sample 1` delegates (`some 2`); at the right endpoint,
`sample 2` is `none`. -/
theorem cut_sample_halfopen_witness :
    exCut.sample 1 = some 2 ∧ exCut.sample 2 = none := by
  constructor
  · have h := (cut_sample_halfopen exCut 1).1 (by decide)
    exact h.trans rfl
  · exact (cut_sample_halfopen exCut 2).2 (by decide)

/-- Claim C9: `Behavior.from_fn f` followed by `react t` is exactly `f t`:
`react` applies precisely the wrapped function. -/
theorem from_fn_react (T A : Type) (f : T → Option A) (t : T) :
    (Behavior.from_fn f).react t = f t :=
  rfl

/-- Claim C10: after any sequence of `tick`/`untick`/`reset`/`set`/
`change_delta` calls on a generator built by `new r d`, the `reset_value`
field still equals `r`, and consequently `reset` still restores `current`
to `r`. -/
theorem reset_value_never_mutated (r d : F32) (ops : List TGOp) :
    ((SimpleF32TimeGenerator.new r d).run ops).reset_value = r ∧
    (((SimpleF32TimeGenerator.new r d).run ops).reset).current = r := by
  have h : ((SimpleF32TimeGenerator.new r d).run ops).reset_value = r :=
    SimpleF32TimeGenerator.run_reset_value _ ops
  exact ⟨h, h⟩

end Awoo
